import Mathlib

/-!
Verification development for the data-portal repository
(`src/services/api.py`, `src/services/state.py`, `src/models/run.py`).

The Python code is shallowly embedded: dictionaries become association
lists, Python truthiness is made explicit, machine floats become `ℚ`,
fallible code returns `Except String`, and the three fixed SQL query
shapes issued by the run executors are embedded by their semantics over
an explicit fact-table row type.
-/

/-- A Python value as it occurs in the filter dictionaries of the repo:
`None`, a string (dates are passed as ISO strings), or a list of strings
(multi-select selections). -/
inductive RawVal where
  | null
  | str (s : String)
  | list (xs : List String)
deriving DecidableEq, Repr

/-- Python truthiness of a `RawVal`: `None`, the empty string and the
empty list are falsy (this is the `if filters.get(...)` test used
throughout `api.py`). -/
def RawVal.truthy : RawVal → Bool
  | .null => false
  | .str s => !(s == "")
  | .list xs => !xs.isEmpty

/-- A Python `dict` with string keys, as an association list in key
insertion order. -/
abbrev RawDict := List (String × RawVal)

/-- `d.get(k)`: the value stored under `k`, or `None` when the key is
absent. -/
def dictGet (d : RawDict) (k : String) : RawVal :=
  match d.find? (fun p => p.1 == k) with
  | some p => p.2
  | none => RawVal.null

/-- `d.get(k, default)`: the value stored under `k`, or `default` when
the key is absent. -/
def dictGetD (d : RawDict) (k : String) (default : RawVal) : RawVal :=
  match d.find? (fun p => p.1 == k) with
  | some p => p.2
  | none => default

/-- A bind-parameter value in the parameter map built by the
`_build_*_where_clause` functions: either the raw dictionary value
(range bounds) or a tuple of strings (`tuple(filters[...])` for a
multi-select field). -/
inductive ParamVal where
  | val (v : RawVal)
  | tup (xs : List String)
deriving DecidableEq, Repr

/-- Python `tuple(x)` for the values that reach it in the builders: a
list keeps its elements in order; a string yields the tuple of its
one-character strings; `tuple(None)` would raise and is only reachable
behind a truthiness guard, so `None` is mapped to the empty tuple. -/
def pyTuple : RawVal → List String
  | .list xs => xs
  | .str s => s.toList.map (fun c => String.singleton c)
  | .null => []

/-- The `conditions` list and `params` dict built by
`_build_sales_where_clause` just before the final join: each of the five
`if filters.get(...)` blocks contributes its predicate and its bind
parameter, in source order. -/
def salesConditions (filters : RawDict) : List String × List (String × ParamVal) :=
  ( (if (dictGet filters "date_from").truthy then ["order_date >= :date_from"] else []) ++
    (if (dictGet filters "date_to").truthy then ["order_date <= :date_to"] else []) ++
    (if (dictGet filters "regions").truthy then ["region IN :regions"] else []) ++
    (if (dictGet filters "product_categories").truthy then
      ["product_category IN :product_categories"] else []) ++
    (if (dictGet filters "channels").truthy then ["channel IN :channels"] else [])
  , (if (dictGet filters "date_from").truthy then
      [("date_from", ParamVal.val (dictGet filters "date_from"))] else []) ++
    (if (dictGet filters "date_to").truthy then
      [("date_to", ParamVal.val (dictGet filters "date_to"))] else []) ++
    (if (dictGet filters "regions").truthy then
      [("regions", ParamVal.tup (pyTuple (dictGet filters "regions")))] else []) ++
    (if (dictGet filters "product_categories").truthy then
      [("product_categories", ParamVal.tup (pyTuple (dictGet filters "product_categories")))] else []) ++
    (if (dictGet filters "channels").truthy then
      [("channels", ParamVal.tup (pyTuple (dictGet filters "channels")))] else []) )

/-- `_build_sales_where_clause`: WHERE fragment and bind parameters for
sales queries; the fragment is `"1=1"` when no condition was emitted. -/
def build_sales_where_clause (filters : RawDict) : String × List (String × ParamVal) :=
  let cp := salesConditions filters
  (if cp.1.isEmpty then "1=1" else String.intercalate " AND " cp.1, cp.2)

/-- The `conditions` list and `params` dict built by
`_build_procurement_where_clause` just before the final join. -/
def procurementConditions (filters : RawDict) : List String × List (String × ParamVal) :=
  ( (if (dictGet filters "date_from").truthy then ["purchase_date >= :date_from"] else []) ++
    (if (dictGet filters "date_to").truthy then ["purchase_date <= :date_to"] else []) ++
    (if (dictGet filters "suppliers").truthy then ["supplier IN :suppliers"] else []) ++
    (if (dictGet filters "material_groups").truthy then
      ["material_group IN :material_groups"] else []) ++
    (if (dictGet filters "plants").truthy then ["plant IN :plants"] else [])
  , (if (dictGet filters "date_from").truthy then
      [("date_from", ParamVal.val (dictGet filters "date_from"))] else []) ++
    (if (dictGet filters "date_to").truthy then
      [("date_to", ParamVal.val (dictGet filters "date_to"))] else []) ++
    (if (dictGet filters "suppliers").truthy then
      [("suppliers", ParamVal.tup (pyTuple (dictGet filters "suppliers")))] else []) ++
    (if (dictGet filters "material_groups").truthy then
      [("material_groups", ParamVal.tup (pyTuple (dictGet filters "material_groups")))] else []) ++
    (if (dictGet filters "plants").truthy then
      [("plants", ParamVal.tup (pyTuple (dictGet filters "plants")))] else []) )

/-- `_build_procurement_where_clause`. -/
def build_procurement_where_clause (filters : RawDict) : String × List (String × ParamVal) :=
  let cp := procurementConditions filters
  (if cp.1.isEmpty then "1=1" else String.intercalate " AND " cp.1, cp.2)

/-- The `conditions` list and `params` dict built by
`_build_finance_where_clause` just before the final join. -/
def financeConditions (filters : RawDict) : List String × List (String × ParamVal) :=
  ( (if (dictGet filters "period_from").truthy then ["posting_period >= :period_from"] else []) ++
    (if (dictGet filters "period_to").truthy then ["posting_period <= :period_to"] else []) ++
    (if (dictGet filters "company_codes").truthy then ["company_code IN :company_codes"] else []) ++
    (if (dictGet filters "cost_centers").truthy then ["cost_center IN :cost_centers"] else []) ++
    (if (dictGet filters "accounts").truthy then ["account IN :accounts"] else [])
  , (if (dictGet filters "period_from").truthy then
      [("period_from", ParamVal.val (dictGet filters "period_from"))] else []) ++
    (if (dictGet filters "period_to").truthy then
      [("period_to", ParamVal.val (dictGet filters "period_to"))] else []) ++
    (if (dictGet filters "company_codes").truthy then
      [("company_codes", ParamVal.tup (pyTuple (dictGet filters "company_codes")))] else []) ++
    (if (dictGet filters "cost_centers").truthy then
      [("cost_centers", ParamVal.tup (pyTuple (dictGet filters "cost_centers")))] else []) ++
    (if (dictGet filters "accounts").truthy then
      [("accounts", ParamVal.tup (pyTuple (dictGet filters "accounts")))] else []) )

/-- `_build_finance_where_clause`. -/
def build_finance_where_clause (filters : RawDict) : String × List (String × ParamVal) :=
  let cp := financeConditions filters
  (if cp.1.isEmpty then "1=1" else String.intercalate " AND " cp.1, cp.2)

/-- One filter field of a domain's declared contract: dictionary key,
the predicate emitted for it, and whether it is a multi-select field
(tuple-bound) rather than a range bound. -/
structure FieldSpec where
  field : String
  pred : String
  multi : Bool
deriving DecidableEq, Repr

/-- Modelled from the spec: the declared sales filter fields in
declaration order (range lower bound, range upper bound, then the
multi-select fields). -/
def salesSpecs : List FieldSpec :=
  [⟨"date_from", "order_date >= :date_from", false⟩,
   ⟨"date_to", "order_date <= :date_to", false⟩,
   ⟨"regions", "region IN :regions", true⟩,
   ⟨"product_categories", "product_category IN :product_categories", true⟩,
   ⟨"channels", "channel IN :channels", true⟩]

/-- Modelled from the spec: the declared procurement filter fields in
declaration order. -/
def procurementSpecs : List FieldSpec :=
  [⟨"date_from", "purchase_date >= :date_from", false⟩,
   ⟨"date_to", "purchase_date <= :date_to", false⟩,
   ⟨"suppliers", "supplier IN :suppliers", true⟩,
   ⟨"material_groups", "material_group IN :material_groups", true⟩,
   ⟨"plants", "plant IN :plants", true⟩]

/-- Modelled from the spec: the declared finance filter fields in
declaration order. -/
def financeSpecs : List FieldSpec :=
  [⟨"period_from", "posting_period >= :period_from", false⟩,
   ⟨"period_to", "posting_period <= :period_to", false⟩,
   ⟨"company_codes", "company_code IN :company_codes", true⟩,
   ⟨"cost_centers", "cost_center IN :cost_centers", true⟩,
   ⟨"accounts", "account IN :accounts", true⟩]

/-- Modelled from the spec: the fields of `specs` that are active in
`filters`, in declaration order. -/
def activeSpecs (specs : List FieldSpec) (filters : RawDict) : List FieldSpec :=
  specs.filter (fun sp => (dictGet filters sp.field).truthy)

/-- Modelled from the spec (§4.1): the WHERE clause of a domain is the
AND-join, in declared field order, of the predicates of the active
fields (the tautology `1=1` when none is active), and the bind map binds
each active field, multi-select fields to the tuple of their selected
values. -/
def specWhere (specs : List FieldSpec) (filters : RawDict) : String × List (String × ParamVal) :=
  let act := activeSpecs specs filters
  (if act.isEmpty then "1=1" else String.intercalate " AND " (act.map (·.pred)),
   act.map (fun sp => (sp.field,
     if sp.multi then ParamVal.tup (pyTuple (dictGet filters sp.field))
     else ParamVal.val (dictGet filters sp.field))))

/-- The SQL single-quote character, written by code point to keep the
development free of quote characters. An inlined SQL string literal
necessarily contains it. -/
def sqlQuoteChar : Char := Char.ofNat 39

/-- `noSqlQuote s` holds when `s` contains no single-quote character, so
no string value can occur in `s` as an inlined SQL literal. -/
def noSqlQuote (s : String) : Bool := s.toList.all (fun c => !(c == sqlQuoteChar))

/-- Lookup in a bind-parameter map (`params[name]`). -/
def paramGet (params : List (String × ParamVal)) (k : String) : Option ParamVal :=
  (params.find? (fun q => q.1 == k)).map (·.2)

/-- `RunStatus` from `models/run.py`: status of a run. -/
inductive RunStatus where
  | pending
  | running
  | completed
  | failed
deriving DecidableEq, Repr

/-- The `.value` string of a `RunStatus` member. -/
def RunStatus.value : RunStatus → String
  | .pending => "pending"
  | .running => "running"
  | .completed => "completed"
  | .failed => "failed"

/-- `RunStatus(s)`: the enum member whose value is `s`, a `ValueError`
otherwise. -/
def runStatusOfValue (s : String) : Except String RunStatus :=
  if s == "pending" then .ok .pending
  else if s == "running" then .ok .running
  else if s == "completed" then .ok .completed
  else if s == "failed" then .ok .failed
  else .error ("ValueError: " ++ s ++ " is not a valid RunStatus")

/-- The `trends` sub-dictionary assembled by a run executor: month
labels plus the domain's two integer series under their metric names. -/
structure TrendsData where
  months : List String
  series : List (String × List Int)
deriving DecidableEq, Repr

/-- The `breakdown` sub-dictionary assembled by a run executor. -/
structure BreakdownData where
  dimension : String
  labels : List String
  values : List Int
deriving DecidableEq, Repr

/-- The results dictionary of one domain run: kpis, trends, breakdown.
KPI values are numbers (`ℚ` stands for Python ints and floats here). -/
structure DomainResults where
  kpis : List (String × ℚ)
  trends : TrendsData
  breakdown : BreakdownData
deriving DecidableEq, Repr

/-- A run's `results` field: the empty dict `{}` (initial value, and the
unknown-domain result of `execute_run`), or a full domain result. -/
inductive RunResults where
  | empty
  | full (r : DomainResults)
deriving DecidableEq, Repr

/-- The `Run` dataclass of `models/run.py` (its data fields). -/
structure Run where
  id : String
  domain : String
  filters : RawDict
  executed_at : String
  status : RunStatus
  results : RunResults
  sql_preview : String
deriving DecidableEq, Repr

/-- Attribute access `r.<name>` for the string-typed attributes declared
on the `Run` dataclass; any name that is not a declared attribute is an
`AttributeError`. -/
def pyGetStrAttr (r : Run) (name : String) : Except String String :=
  if name == "id" then .ok r.id
  else if name == "domain" then .ok r.domain
  else if name == "executed_at" then .ok r.executed_at
  else if name == "sql_preview" then .ok r.sql_preview
  else .error ("AttributeError: Run object has no attribute " ++ name)

/-- Python truthiness of an optional-string argument (`if business_case:`
in `state.py`): `None` and the empty string are falsy. -/
def optTruthy : Option String → Bool
  | none => false
  | some s => !(s == "")

/-- Descending order on runs by execution timestamp, the sort key of
`get_runs` (`sorted(..., key=lambda r: r.executed_at, reverse=True)`).
ISO timestamps compare chronologically as strings. -/
def runsDescRel (a b : Run) : Prop := b.executed_at ≤ a.executed_at

instance : DecidableRel runsDescRel :=
  fun a b => inferInstanceAs (Decidable (b.executed_at ≤ a.executed_at))

instance : IsTotal Run runsDescRel :=
  ⟨fun a b => le_total b.executed_at a.executed_at⟩

instance : IsTrans Run runsDescRel :=
  ⟨fun _ _ _ hab hbc => le_trans hbc hab⟩

/-- Strict descending order on runs by execution timestamp. -/
def runsDescStrict (a b : Run) : Prop := b.executed_at < a.executed_at

instance : IsAntisymm Run runsDescStrict :=
  ⟨fun _ _ h1 h2 => absurd (lt_trans h1 h2) (lt_irrefl _)⟩

/-- Python's `sorted` is a stable sort; with `reverse=True` it yields a
descending order keeping ties in input order, which insertion sort with
`runsDescRel` reproduces. -/
def sortRunsDesc (runs : List Run) : List Run := List.insertionSort runsDescRel runs

/-- `get_runs` from `services/state.py`: optionally filter the stored
runs (the filter reads the attribute `business_case` off each run), then
sort by execution timestamp, newest first. -/
def get_runs (runs : List Run) (business_case : Option String) :
    Except String (List Run) := do
  let rs ← if optTruthy business_case then
      runs.filterM (fun r => do
        let v ← pyGetStrAttr r "business_case"
        pure (v == business_case.getD ""))
    else pure runs
  pure (sortRunsDesc rs)

/-- `get_completed_runs` from `services/state.py`: `get_runs` filtered
to status == COMPLETED. -/
def get_completed_runs (runs : List Run) (business_case : Option String) :
    Except String (List Run) := do
  let rs ← get_runs runs business_case
  pure (rs.filter (fun r => r.status == RunStatus.completed))

/-- A concrete stored run used to exhibit the `get_runs` failure. -/
def archiveRun : Run :=
  { id := "run-1", domain := "sales", filters := [],
    executed_at := "2025-06-01T12:00:00", status := RunStatus.completed,
    results := RunResults.empty, sql_preview := "" }

/-- Concrete run with the earliest timestamp, for the store-order
witness. -/
def witnessRunA : Run :=
  { id := "a", domain := "sales", filters := [],
    executed_at := "2025-01-01T00:00:00", status := RunStatus.completed,
    results := RunResults.empty, sql_preview := "" }

/-- Concrete run with the middle timestamp. -/
def witnessRunB : Run :=
  { id := "b", domain := "sales", filters := [],
    executed_at := "2025-02-01T00:00:00", status := RunStatus.completed,
    results := RunResults.empty, sql_preview := "" }

/-- Concrete run with the latest timestamp. -/
def witnessRunC : Run :=
  { id := "c", domain := "sales", filters := [],
    executed_at := "2025-03-01T00:00:00", status := RunStatus.completed,
    results := RunResults.empty, sql_preview := "" }

/-- The dictionary produced by `Run.to_dict` / consumed by
`Run.from_dict`; every field is optional because `from_dict` reads each
key with `data.get(key, default)`. -/
structure RunDict where
  id : Option String
  domain : Option String
  filters : Option RawDict
  executed_at : Option String
  status : Option String
  results : Option RunResults
  sql_preview : Option String
deriving DecidableEq, Repr

/-- `Run.to_dict`: serialize a run; the status is stored as its value
string. -/
def Run.to_dict (r : Run) : RunDict :=
  { id := some r.id, domain := some r.domain, filters := some r.filters,
    executed_at := some r.executed_at, status := some r.status.value,
    results := some r.results, sql_preview := some r.sql_preview }

/-- `Run.from_dict`: deserialize a run. `freshId` stands for the
`str(uuid.uuid4())` default and `now` for `datetime.now().isoformat()`;
`__post_init__` replaces an empty `executed_at` by `now`. An unknown
status value is a `ValueError`. -/
def Run.from_dict (freshId now : String) (d : RunDict) : Except String Run := do
  let status ← runStatusOfValue (d.status.getD "pending")
  let executed_at_raw := d.executed_at.getD ""
  pure { id := d.id.getD freshId,
         domain := d.domain.getD "",
         filters := d.filters.getD [],
         executed_at := if executed_at_raw == "" then now else executed_at_raw,
         status := status,
         results := d.results.getD RunResults.empty,
         sql_preview := d.sql_preview.getD "" }

/-- Python division on numbers (`a / b`): `ZeroDivisionError` when the
divisor is zero. -/
def pyDivQ (a b : ℚ) : Except String ℚ :=
  if b = 0 then .error "ZeroDivisionError: division by zero" else .ok (a / b)

/-- `conversion_rate = (total_orders / unique_visitors * 100) if
unique_visitors > 0 else 0.0` from `_execute_sales_run`. -/
def sales_conversion_rate (total_orders unique_visitors : ℤ) : Except String ℚ :=
  if unique_visitors > 0 then
    (pyDivQ (total_orders : ℚ) (unique_visitors : ℚ)).map (· * 100)
  else .ok 0

/-- `on_time_delivery = (on_time_count / delivery_count * 100) if
delivery_count > 0 else 0.0` from `_execute_procurement_run`. -/
def procurement_on_time_rate (on_time_count delivery_count : ℤ) : Except String ℚ :=
  if delivery_count > 0 then
    (pyDivQ (on_time_count : ℚ) (delivery_count : ℚ)).map (· * 100)
  else .ok 0

/-- `operating_margin = (total_income - total_expenses) / total_income *
100 if total_income > 0 else 0.0` from `_execute_finance_run`. -/
def finance_operating_margin (total_income total_expenses : ℚ) : Except String ℚ :=
  if total_income > 0 then
    (pyDivQ (total_income - total_expenses) total_income).map (· * 100)
  else .ok 0

/-- Extract the value of a computation that cannot fail (used by the
executors for the guarded ratios; the default is never taken). -/
def exceptValD (e : Except String ℚ) (d : ℚ) : ℚ :=
  match e with
  | .ok v => v
  | .error _ => d

/-- Numeric value of a pair of ASCII digit characters. -/
def digitsToNat (a b : Char) : ℕ := (a.toNat - 48) * 10 + (b.toNat - 48)

/-- Gregorian leap year. -/
def isLeapYear (y : ℕ) : Bool := (y % 4 == 0 && !(y % 100 == 0)) || y % 400 == 0

/-- Days in a month of the proleptic Gregorian calendar. -/
def daysInMonth (y m : ℕ) : ℕ :=
  if m == 2 then (if isLeapYear y then 29 else 28)
  else if m == 4 || m == 6 || m == 9 || m == 11 then 30 else 31

/-- Validity of an ISO `YYYY-MM-DD` date string as accepted by
`date.fromisoformat` (only this primary form is modelled). -/
def isIsoDate (s : String) : Bool :=
  match s.toList with
  | [y1, y2, y3, y4, h1, m1, m2, h2, d1, d2] =>
    (y1.isDigit && y2.isDigit && y3.isDigit && y4.isDigit && m1.isDigit && m2.isDigit &&
      d1.isDigit && d2.isDigit && h1 == '-' && h2 == '-') &&
    (let y := (y1.toNat - 48) * 1000 + (y2.toNat - 48) * 100 + (y3.toNat - 48) * 10 +
      (y4.toNat - 48)
     let m := digitsToNat m1 m2
     let d := digitsToNat d1 d2
     decide (1 ≤ m) && decide (m ≤ 12) && decide (1 ≤ d) && decide (d ≤ daysInMonth y m))
  | _ => false

/-- `date.fromisoformat(v)`: the parsed date is kept as its ISO string;
a malformed string is a `ValueError`, a non-string a `TypeError`. -/
def date_fromisoformat (v : RawVal) : Except String String :=
  match v with
  | .str s =>
    if isIsoDate s then .ok s else .error ("ValueError: Invalid isoformat string: " ++ s)
  | _ => .error "TypeError: fromisoformat: argument must be str"

/-- `SalesFilters` dataclass: parsed date bounds and the multi-select
values as stored (Python stores `data.get(key, [])` verbatim). -/
structure SalesFilters where
  date_from : Option String
  date_to : Option String
  regions : RawVal
  product_categories : RawVal
  channels : RawVal
deriving DecidableEq, Repr

/-- `SalesFilters.from_dict`. -/
def SalesFilters.from_dict (data : RawDict) : Except String SalesFilters := do
  let date_from ← if (dictGet data "date_from").truthy
    then (date_fromisoformat (dictGet data "date_from")).map some
    else pure none
  let date_to ← if (dictGet data "date_to").truthy
    then (date_fromisoformat (dictGet data "date_to")).map some
    else pure none
  pure { date_from := date_from, date_to := date_to,
         regions := dictGetD data "regions" (RawVal.list []),
         product_categories := dictGetD data "product_categories" (RawVal.list []),
         channels := dictGetD data "channels" (RawVal.list []) }

/-- `ProcurementFilters` dataclass. -/
structure ProcurementFilters where
  date_from : Option String
  date_to : Option String
  suppliers : RawVal
  material_groups : RawVal
  plants : RawVal
deriving DecidableEq, Repr

/-- `ProcurementFilters.from_dict`. -/
def ProcurementFilters.from_dict (data : RawDict) : Except String ProcurementFilters := do
  let date_from ← if (dictGet data "date_from").truthy
    then (date_fromisoformat (dictGet data "date_from")).map some
    else pure none
  let date_to ← if (dictGet data "date_to").truthy
    then (date_fromisoformat (dictGet data "date_to")).map some
    else pure none
  pure { date_from := date_from, date_to := date_to,
         suppliers := dictGetD data "suppliers" (RawVal.list []),
         material_groups := dictGetD data "material_groups" (RawVal.list []),
         plants := dictGetD data "plants" (RawVal.list []) }

/-- `FinanceFilters` dataclass: the period bounds are stored verbatim
(no parsing in the source). -/
structure FinanceFilters where
  period_from : RawVal
  period_to : RawVal
  company_codes : RawVal
  cost_centers : RawVal
  accounts : RawVal
deriving DecidableEq, Repr

/-- `FinanceFilters.from_dict` (never raises). -/
def FinanceFilters.from_dict (data : RawDict) : Except String FinanceFilters :=
  .ok { period_from := dictGet data "period_from",
        period_to := dictGet data "period_to",
        company_codes := dictGetD data "company_codes" (RawVal.list []),
        cost_centers := dictGetD data "cost_centers" (RawVal.list []),
        accounts := dictGetD data "accounts" (RawVal.list []) }

/-- The `DomainFilters` union of `models/run.py`. -/
inductive DomainFilters where
  | sales (f : SalesFilters)
  | procurement (f : ProcurementFilters)
  | finance (f : FinanceFilters)
deriving DecidableEq, Repr

/-- `create_filters_from_dict`: factory dispatching on the domain tag;
an unknown domain is a `ValueError`. -/
def create_filters_from_dict (domain : String) (data : RawDict) :
    Except String DomainFilters :=
  if domain == "sales" then (SalesFilters.from_dict data).map DomainFilters.sales
  else if domain == "procurement" then
    (ProcurementFilters.from_dict data).map DomainFilters.procurement
  else if domain == "finance" then (FinanceFilters.from_dict data).map DomainFilters.finance
  else .error ("ValueError: Unknown domain: " ++ domain)

/-- The field names declared by each domain's filter dataclass. -/
def declaredFields (domain : String) : List String :=
  if domain == "sales" then ["date_from", "date_to", "regions", "product_categories", "channels"]
  else if domain == "procurement" then
    ["date_from", "date_to", "suppliers", "material_groups", "plants"]
  else if domain == "finance" then
    ["period_from", "period_to", "company_codes", "cost_centers", "accounts"]
  else []

/-- Python `int(x)` on a number: truncation toward zero. -/
def pyInt (q : ℚ) : ℤ := if 0 ≤ q then ⌊q⌋ else ⌈q⌉

/-- Python `round(x, d)` modelled on `ℚ` (round half to even differs
from `round` only at exact midpoints of the underlying float, which is
immaterial to the claims below). -/
def roundPy (d : ℕ) (q : ℚ) : ℚ := (round (q * (10 ^ d : ℚ)) : ℤ) / (10 ^ d : ℚ)

/-- Distinct values of a list in first-occurrence order (`SELECT
DISTINCT` / `COUNT(DISTINCT ...)`). -/
def distinctKeys {κ : Type} [BEq κ] (l : List κ) : List κ :=
  l.foldl (fun acc k => if acc.contains k then acc else acc ++ [k]) []

/-- `GROUP BY key` with `SUM(val)` over the grouped rows. -/
def groupSum {ρ : Type} (rows : List ρ) (key : ρ → String) (val : ρ → ℚ) :
    List (String × ℚ) :=
  (distinctKeys (rows.map key)).map
    (fun k => (k, ((rows.filter (fun r => key r == k)).map val).sum))

/-- Descending order on (label, value) rows by value (`ORDER BY value
DESC`). -/
def pairDescRel (a b : String × ℚ) : Prop := b.2 ≤ a.2

instance : DecidableRel pairDescRel := fun a b => inferInstanceAs (Decidable (b.2 ≤ a.2))

instance : IsTotal (String × ℚ) pairDescRel := ⟨fun a b => le_total b.2 a.2⟩

instance : IsTrans (String × ℚ) pairDescRel := ⟨fun _ _ _ hab hbc => le_trans hbc hab⟩

/-- `ORDER BY value DESC LIMIT n`. -/
def topNDesc (n : ℕ) (l : List (String × ℚ)) : List (String × ℚ) :=
  (List.insertionSort pairDescRel l).take n

/-- `ORDER BY` ascending on integer group keys. -/
def sortNatAsc (l : List ℕ) : List ℕ := List.insertionSort (fun a b => a ≤ b) l

/-- `ORDER BY` ascending on string group keys. -/
def sortStrAsc (l : List String) : List String := List.insertionSort (fun a b => a ≤ b) l

/-- `EXTRACT(MONTH FROM d)` for an ISO `YYYY-MM-DD` date string. -/
def monthNum (d : String) : ℕ := (((d.drop 5).take 2).toNat?).getD 0

/-- `TO_CHAR(d, 'Mon')`: three-letter month abbreviation. -/
def monthAbbrevOf (n : ℕ) : String :=
  if n == 1 then "Jan" else if n == 2 then "Feb" else if n == 3 then "Mar"
  else if n == 4 then "Apr" else if n == 5 then "May" else if n == 6 then "Jun"
  else if n == 7 then "Jul" else if n == 8 then "Aug" else if n == 9 then "Sep"
  else if n == 10 then "Oct" else if n == 11 then "Nov" else if n == 12 then "Dec" else ""

/-- The `month_abbrevs` dictionary of `_execute_finance_run`. -/
def month_abbrevs (k : String) : Option String :=
  if k == "01" then some "Jan" else if k == "02" then some "Feb"
  else if k == "03" then some "Mar" else if k == "04" then some "Apr"
  else if k == "05" then some "May" else if k == "06" then some "Jun"
  else if k == "07" then some "Jul" else if k == "08" then some "Aug"
  else if k == "09" then some "Sep" else if k == "10" then some "Oct"
  else if k == "11" then some "Nov" else if k == "12" then some "Dec" else none

/-- A row of `mart.sales_orders_fact` (dates as ISO strings, DECIMAL as
`ℚ`). -/
structure SalesRow where
  order_date : String
  region : String
  product_category : String
  channel : String
  revenue : ℚ
  visitor_id : String
deriving DecidableEq, Repr

/-- A row of `mart.procurement_orders_fact`; the delivery dates are
nullable. -/
structure ProcurementRow where
  purchase_date : String
  supplier : String
  material_group : String
  plant : String
  spend : ℚ
  requested_delivery_date : Option String
  actual_delivery_date : Option String
deriving DecidableEq, Repr

/-- A row of `mart.gl_postings_fact`. -/
structure FinanceRow where
  posting_period : String
  company_code : String
  cost_center : String
  account : String
  account_type : String
  amount : ℚ
deriving DecidableEq, Repr

/-- The string carried by a bound range value (the declared contract
binds ISO date / period strings there). -/
def rawStr : RawVal → String
  | .str s => s
  | _ => ""

/-- Row semantics of the WHERE clause built by
`_build_sales_where_clause` (dates compare chronologically as ISO
strings; `IN` is membership in the bound tuple). -/
def salesWhereSem (filters : RawDict) (row : SalesRow) : Bool :=
  (if (dictGet filters "date_from").truthy then
    decide (rawStr (dictGet filters "date_from") ≤ row.order_date) else true) &&
  (if (dictGet filters "date_to").truthy then
    decide (row.order_date ≤ rawStr (dictGet filters "date_to")) else true) &&
  (if (dictGet filters "regions").truthy then
    (pyTuple (dictGet filters "regions")).contains row.region else true) &&
  (if (dictGet filters "product_categories").truthy then
    (pyTuple (dictGet filters "product_categories")).contains row.product_category else true) &&
  (if (dictGet filters "channels").truthy then
    (pyTuple (dictGet filters "channels")).contains row.channel else true)

/-- Row semantics of the WHERE clause built by
`_build_procurement_where_clause`. -/
def procurementWhereSem (filters : RawDict) (row : ProcurementRow) : Bool :=
  (if (dictGet filters "date_from").truthy then
    decide (rawStr (dictGet filters "date_from") ≤ row.purchase_date) else true) &&
  (if (dictGet filters "date_to").truthy then
    decide (row.purchase_date ≤ rawStr (dictGet filters "date_to")) else true) &&
  (if (dictGet filters "suppliers").truthy then
    (pyTuple (dictGet filters "suppliers")).contains row.supplier else true) &&
  (if (dictGet filters "material_groups").truthy then
    (pyTuple (dictGet filters "material_groups")).contains row.material_group else true) &&
  (if (dictGet filters "plants").truthy then
    (pyTuple (dictGet filters "plants")).contains row.plant else true)

/-- Row semantics of the WHERE clause built by
`_build_finance_where_clause`. -/
def financeWhereSem (filters : RawDict) (row : FinanceRow) : Bool :=
  (if (dictGet filters "period_from").truthy then
    decide (rawStr (dictGet filters "period_from") ≤ row.posting_period) else true) &&
  (if (dictGet filters "period_to").truthy then
    decide (row.posting_period ≤ rawStr (dictGet filters "period_to")) else true) &&
  (if (dictGet filters "company_codes").truthy then
    (pyTuple (dictGet filters "company_codes")).contains row.company_code else true) &&
  (if (dictGet filters "cost_centers").truthy then
    (pyTuple (dictGet filters "cost_centers")).contains row.cost_center else true) &&
  (if (dictGet filters "accounts").truthy then
    (pyTuple (dictGet filters "accounts")).contains row.account else true)

/-- `_execute_sales_run`: the three aggregation queries (KPI totals,
monthly trend, top-10 region breakdown) evaluated over the filtered fact
rows, then the Python post-processing (`int`, `round`, guarded ratio)
applied exactly as in the source. -/
def execute_sales_run (facts : List SalesRow) (filters : RawDict) : DomainResults :=
  let rows := facts.filter (salesWhereSem filters)
  let total_revenue_agg : ℚ := (rows.map (fun r => r.revenue)).sum
  let total_orders : ℤ := (rows.length : ℤ)
  let avg_order_value_agg : ℚ :=
    if rows.length == 0 then 0 else total_revenue_agg / (rows.length : ℚ)
  let unique_visitors : ℤ := ((distinctKeys (rows.map (fun r => r.visitor_id))).length : ℤ)
  let conversion_rate : ℚ := exceptValD (sales_conversion_rate total_orders unique_visitors) 0
  let month_nums := sortNatAsc (distinctKeys (rows.map (fun r => monthNum r.order_date)))
  let trend_rows := month_nums.map (fun m =>
    (monthAbbrevOf m,
     ((rows.filter (fun r => monthNum r.order_date == m)).map (fun r => r.revenue)).sum,
     (((rows.filter (fun r => monthNum r.order_date == m)).length : ℤ))))
  let breakdown_rows := topNDesc 10 (groupSum rows (fun r => r.region) (fun r => r.revenue))
  { kpis := [("total_revenue", (pyInt total_revenue_agg : ℚ)),
             ("total_orders", (total_orders : ℚ)),
             ("avg_order_value", roundPy 2 avg_order_value_agg),
             ("conversion_rate", roundPy 1 conversion_rate)],
    trends := { months := trend_rows.map (fun t => t.1),
                series := [("revenue", trend_rows.map (fun t => pyInt t.2.1)),
                           ("orders", trend_rows.map (fun t => t.2.2))] },
    breakdown := { dimension := "region",
                   labels := breakdown_rows.map (fun p => p.1),
                   values := breakdown_rows.map (fun p => pyInt p.2) } }

/-- `_execute_procurement_run`: KPI totals (with the on-time /
delivery-count CASE aggregates), monthly trend, top-10 material-group
breakdown. -/
def execute_procurement_run (facts : List ProcurementRow) (filters : RawDict) :
    DomainResults :=
  let rows := facts.filter (procurementWhereSem filters)
  let total_spend_agg : ℚ := (rows.map (fun r => r.spend)).sum
  let purchase_orders : ℤ := (rows.length : ℤ)
  let avg_po_value_agg : ℚ :=
    if rows.length == 0 then 0 else total_spend_agg / (rows.length : ℚ)
  let on_time_count : ℤ := ((rows.filter (fun r =>
    match r.actual_delivery_date, r.requested_delivery_date with
    | some a, some q => decide (a ≤ q)
    | _, _ => false)).length : ℤ)
  let delivery_count : ℤ := ((rows.filter (fun r =>
    r.actual_delivery_date.isSome && r.requested_delivery_date.isSome)).length : ℤ)
  let on_time_delivery : ℚ := exceptValD (procurement_on_time_rate on_time_count delivery_count) 0
  let month_nums := sortNatAsc (distinctKeys (rows.map (fun r => monthNum r.purchase_date)))
  let trend_rows := month_nums.map (fun m =>
    (monthAbbrevOf m,
     ((rows.filter (fun r => monthNum r.purchase_date == m)).map (fun r => r.spend)).sum,
     (((rows.filter (fun r => monthNum r.purchase_date == m)).length : ℤ))))
  let breakdown_rows :=
    topNDesc 10 (groupSum rows (fun r => r.material_group) (fun r => r.spend))
  { kpis := [("total_spend", (pyInt total_spend_agg : ℚ)),
             ("purchase_orders", (purchase_orders : ℚ)),
             ("avg_po_value", roundPy 2 avg_po_value_agg),
             ("on_time_delivery", roundPy 1 on_time_delivery)],
    trends := { months := trend_rows.map (fun t => t.1),
                series := [("spend", trend_rows.map (fun t => pyInt t.2.1)),
                           ("orders", trend_rows.map (fun t => t.2.2))] },
    breakdown := { dimension := "material_group",
                   labels := breakdown_rows.map (fun p => p.1),
                   values := breakdown_rows.map (fun p => pyInt p.2) } }

/-- `_execute_finance_run`: KPI totals split by account type, trend per
posting period (with month-abbreviation relabelling), top-10 cost-center
breakdown over `SUM(ABS(amount))`. -/
def execute_finance_run (facts : List FinanceRow) (filters : RawDict) : DomainResults :=
  let rows := facts.filter (financeWhereSem filters)
  let total_income : ℚ :=
    ((rows.filter (fun r => r.account_type == "revenue")).map (fun r => r.amount)).sum
  let total_expenses : ℚ :=
    ((rows.filter (fun r => r.account_type == "expense")).map (fun r => abs r.amount)).sum
  let net_income : ℚ := (rows.map (fun r => r.amount)).sum
  let posting_count : ℤ := (rows.length : ℤ)
  let operating_margin : ℚ :=
    exceptValD (finance_operating_margin total_income total_expenses) 0
  let periods := sortStrAsc (distinctKeys (rows.map (fun r => r.posting_period)))
  let trend_rows := periods.map (fun p =>
    (p,
     ((rows.filter (fun r => r.posting_period == p && r.account_type == "revenue")).map
       (fun r => r.amount)).sum,
     ((rows.filter (fun r => r.posting_period == p && r.account_type == "expense")).map
       (fun r => abs r.amount)).sum))
  let months := trend_rows.map (fun t =>
    if !(t.1 == "") && decide (7 ≤ t.1.length) then
      (month_abbrevs ((t.1.drop 5).take 2)).getD t.1
    else t.1)
  let breakdown_rows :=
    topNDesc 10 (groupSum rows (fun r => r.cost_center) (fun r => abs r.amount))
  { kpis := [("net_income", (pyInt net_income : ℚ)),
             ("operating_margin", roundPy 1 operating_margin),
             ("total_expenses", (pyInt total_expenses : ℚ)),
             ("posting_count", (posting_count : ℚ))],
    trends := { months := months,
                series := [("income", trend_rows.map (fun t => pyInt t.2.1)),
                           ("expenses", trend_rows.map (fun t => pyInt t.2.2))] },
    breakdown := { dimension := "cost_center",
                   labels := breakdown_rows.map (fun p => p.1),
                   values := breakdown_rows.map (fun p => pyInt p.2) } }

/-- The single-quote character as a one-character string. -/
def sqlQuoteStr : String := String.singleton sqlQuoteChar

/-- The display rendering of a value inside single quotes
(`f"...'{x}'..."`). -/
def sqLit (s : String) : String := sqlQuoteStr ++ s ++ sqlQuoteStr

/-- `str(x)` for the values reaching the preview f-strings. -/
def pyStrOfRawVal (v : RawVal) : String :=
  match v with
  | .str s => s
  | .null => "None"
  | .list xs => "[" ++ String.intercalate ", " (xs.map sqLit) ++ "]"

/-- `", ".join(f"'{x}'" for x in xs)`. -/
def joinLits (xs : List String) : String := String.intercalate ", " (xs.map sqLit)

/-- `_generate_sales_sql`: display-only preview with inlined literals. -/
def generate_sales_sql (filters : RawDict) : String :=
  let where_clauses :=
    (if (dictGet filters "date_from").truthy then
      ["order_date >= " ++ sqLit (pyStrOfRawVal (dictGet filters "date_from"))] else []) ++
    (if (dictGet filters "date_to").truthy then
      ["order_date <= " ++ sqLit (pyStrOfRawVal (dictGet filters "date_to"))] else []) ++
    (if (dictGet filters "regions").truthy then
      ["region IN (" ++ joinLits (pyTuple (dictGet filters "regions")) ++ ")"] else []) ++
    (if (dictGet filters "product_categories").truthy then
      ["product_category IN (" ++
        joinLits (pyTuple (dictGet filters "product_categories")) ++ ")"] else []) ++
    (if (dictGet filters "channels").truthy then
      ["channel IN (" ++ joinLits (pyTuple (dictGet filters "channels")) ++ ")"] else [])
  let where_clause :=
    if where_clauses.isEmpty then "1=1" else String.intercalate " AND " where_clauses
  "SELECT\n    SUM(revenue) as total_revenue,\n    COUNT(*) as total_orders,\n" ++
    "    AVG(revenue) as avg_order_value,\n    COUNT(DISTINCT visitor_id) as unique_visitors\n" ++
    "FROM mart.sales_orders_fact\nWHERE " ++ where_clause

/-- `_generate_procurement_sql`. -/
def generate_procurement_sql (filters : RawDict) : String :=
  let where_clauses :=
    (if (dictGet filters "date_from").truthy then
      ["purchase_date >= " ++ sqLit (pyStrOfRawVal (dictGet filters "date_from"))] else []) ++
    (if (dictGet filters "date_to").truthy then
      ["purchase_date <= " ++ sqLit (pyStrOfRawVal (dictGet filters "date_to"))] else []) ++
    (if (dictGet filters "suppliers").truthy then
      ["supplier IN (" ++ joinLits (pyTuple (dictGet filters "suppliers")) ++ ")"] else []) ++
    (if (dictGet filters "material_groups").truthy then
      ["material_group IN (" ++
        joinLits (pyTuple (dictGet filters "material_groups")) ++ ")"] else []) ++
    (if (dictGet filters "plants").truthy then
      ["plant IN (" ++ joinLits (pyTuple (dictGet filters "plants")) ++ ")"] else [])
  let where_clause :=
    if where_clauses.isEmpty then "1=1" else String.intercalate " AND " where_clauses
  "SELECT\n    SUM(spend) as total_spend,\n    COUNT(*) as purchase_orders,\n" ++
    "    AVG(spend) as avg_po_value,\n    COUNT(DISTINCT supplier) as unique_suppliers\n" ++
    "FROM mart.procurement_orders_fact\nWHERE " ++ where_clause

/-- `_generate_finance_sql`. -/
def generate_finance_sql (filters : RawDict) : String :=
  let where_clauses :=
    (if (dictGet filters "period_from").truthy then
      ["posting_period >= " ++ sqLit (pyStrOfRawVal (dictGet filters "period_from"))] else []) ++
    (if (dictGet filters "period_to").truthy then
      ["posting_period <= " ++ sqLit (pyStrOfRawVal (dictGet filters "period_to"))] else []) ++
    (if (dictGet filters "company_codes").truthy then
      ["company_code IN (" ++ joinLits (pyTuple (dictGet filters "company_codes")) ++ ")"] else []) ++
    (if (dictGet filters "cost_centers").truthy then
      ["cost_center IN (" ++ joinLits (pyTuple (dictGet filters "cost_centers")) ++ ")"] else []) ++
    (if (dictGet filters "accounts").truthy then
      ["account IN (" ++ joinLits (pyTuple (dictGet filters "accounts")) ++ ")"] else [])
  let where_clause :=
    if where_clauses.isEmpty then "1=1" else String.intercalate " AND " where_clauses
  "SELECT\n    SUM(CASE WHEN amount > 0 THEN amount ELSE 0 END) as total_income,\n" ++
    "    SUM(CASE WHEN amount < 0 THEN ABS(amount) ELSE 0 END) as total_expenses,\n" ++
    "    SUM(amount) as net_income,\n    COUNT(*) as posting_count\n" ++
    "FROM mart.gl_postings_fact\nWHERE " ++ where_clause

/-- `generate_sql_preview`: dispatch on the domain tag; unknown domains
degrade to the comment-only placeholder. -/
def generate_sql_preview (domain : String) (filters : RawDict) : String :=
  if domain == "sales" then generate_sales_sql filters
  else if domain == "procurement" then generate_procurement_sql filters
  else if domain == "finance" then generate_finance_sql filters
  else "-- Unknown domain"

/-- The three gold fact tables the executors query. -/
structure FactDb where
  sales : List SalesRow
  procurement : List ProcurementRow
  finance : List FinanceRow
deriving DecidableEq, Repr

/-- `execute_run`: generate the preview, dispatch to the domain
executor, and return (results, preview); an unknown domain yields the
empty results dict. -/
def execute_run (db : FactDb) (domain : String) (filters : RawDict) :
    RunResults × String :=
  let sql_preview := generate_sql_preview domain filters
  let results : RunResults :=
    if domain == "sales" then RunResults.full (execute_sales_run db.sales filters)
    else if domain == "procurement" then
      RunResults.full (execute_procurement_run db.procurement filters)
    else if domain == "finance" then RunResults.full (execute_finance_run db.finance filters)
    else RunResults.empty
  (results, sql_preview)

lemma mem_if_singleton {α : Type} {b : Bool} {x p : α}
    (h : x ∈ if b = true then [p] else ([] : List α)) : x = p := by
  split at h <;> simp_all

lemma sales_conditions_eq_spec (filters : RawDict) :
    salesConditions filters =
      ((salesSpecs.filter (fun q => (dictGet filters q.field).truthy)).map (fun q => q.pred),
       (salesSpecs.filter (fun q => (dictGet filters q.field).truthy)).map
         (fun q => (q.field, if q.multi then ParamVal.tup (pyTuple (dictGet filters q.field))
                    else ParamVal.val (dictGet filters q.field)))) := by
  cases h1 : (dictGet filters "date_from").truthy <;>
  cases h2 : (dictGet filters "date_to").truthy <;>
  cases h3 : (dictGet filters "regions").truthy <;>
  cases h4 : (dictGet filters "product_categories").truthy <;>
  cases h5 : (dictGet filters "channels").truthy <;>
    simp [salesConditions, salesSpecs, List.filter, h1, h2, h3, h4, h5]

lemma procurement_conditions_eq_spec (filters : RawDict) :
    procurementConditions filters =
      ((procurementSpecs.filter (fun q => (dictGet filters q.field).truthy)).map (fun q => q.pred),
       (procurementSpecs.filter (fun q => (dictGet filters q.field).truthy)).map
         (fun q => (q.field, if q.multi then ParamVal.tup (pyTuple (dictGet filters q.field))
                    else ParamVal.val (dictGet filters q.field)))) := by
  cases h1 : (dictGet filters "date_from").truthy <;>
  cases h2 : (dictGet filters "date_to").truthy <;>
  cases h3 : (dictGet filters "suppliers").truthy <;>
  cases h4 : (dictGet filters "material_groups").truthy <;>
  cases h5 : (dictGet filters "plants").truthy <;>
    simp [procurementConditions, procurementSpecs, List.filter, h1, h2, h3, h4, h5]

lemma finance_conditions_eq_spec (filters : RawDict) :
    financeConditions filters =
      ((financeSpecs.filter (fun q => (dictGet filters q.field).truthy)).map (fun q => q.pred),
       (financeSpecs.filter (fun q => (dictGet filters q.field).truthy)).map
         (fun q => (q.field, if q.multi then ParamVal.tup (pyTuple (dictGet filters q.field))
                    else ParamVal.val (dictGet filters q.field)))) := by
  cases h1 : (dictGet filters "period_from").truthy <;>
  cases h2 : (dictGet filters "period_to").truthy <;>
  cases h3 : (dictGet filters "company_codes").truthy <;>
  cases h4 : (dictGet filters "cost_centers").truthy <;>
  cases h5 : (dictGet filters "accounts").truthy <;>
    simp [financeConditions, financeSpecs, List.filter, h1, h2, h3, h4, h5]

lemma sales_where_eq_spec (filters : RawDict) :
    build_sales_where_clause filters = specWhere salesSpecs filters := by
  simp only [build_sales_where_clause, specWhere, activeSpecs, sales_conditions_eq_spec]
  cases salesSpecs.filter (fun q => (dictGet filters q.field).truthy) <;> simp

lemma procurement_where_eq_spec (filters : RawDict) :
    build_procurement_where_clause filters = specWhere procurementSpecs filters := by
  simp only [build_procurement_where_clause, specWhere, activeSpecs,
    procurement_conditions_eq_spec]
  cases procurementSpecs.filter (fun q => (dictGet filters q.field).truthy) <;> simp

lemma finance_where_eq_spec (filters : RawDict) :
    build_finance_where_clause filters = specWhere financeSpecs filters := by
  simp only [build_finance_where_clause, specWhere, activeSpecs, finance_conditions_eq_spec]
  cases financeSpecs.filter (fun q => (dictGet filters q.field).truthy) <;> simp

lemma count_pred_of_mem (t : FieldSpec → Bool) :
    ∀ (specs : List FieldSpec) (sp : FieldSpec), sp ∈ specs →
      (specs.map (fun q => q.pred)).Nodup →
      ((specs.filter t).map (fun q => q.pred)).count sp.pred = if t sp then 1 else 0 := by
  intro specs
  induction specs with
  | nil => intro sp h; simp at h
  | cons q rest ih =>
    intro sp hsp hnd
    simp only [List.map_cons, List.nodup_cons] at hnd
    obtain ⟨hq, hndr⟩ := hnd
    have hsub : ∀ x, x ∈ (rest.filter t).map (fun q => q.pred) →
        x ∈ rest.map (fun q => q.pred) := by
      intro x hx
      obtain ⟨a, ha, rfl⟩ := List.mem_map.mp hx
      exact List.mem_map.mpr ⟨a, List.mem_of_mem_filter ha, rfl⟩
    have hzero : ((rest.filter t).map (fun q => q.pred)).count q.pred = 0 :=
      List.count_eq_zero.mpr (fun hmem2 => hq (hsub _ hmem2))
    rcases List.mem_cons.mp hsp with rfl | hmem
    · cases ht : t sp with
      | true =>
        rw [List.filter_cons_of_pos ht]
        simp [List.count_cons_self, hzero]
      | false =>
        rw [List.filter_cons_of_neg (by simp [ht])]
        simp [hzero]
    · have hne : sp.pred ≠ q.pred :=
        fun he => hq (he ▸ List.mem_map.mpr ⟨sp, hmem, rfl⟩)
      cases ht : t q with
      | true =>
        rw [List.filter_cons_of_pos ht]
        simp only [List.map_cons]
        rw [List.count_cons_of_ne hne]
        exact ih sp hmem hndr
      | false =>
        rw [List.filter_cons_of_neg (by simp [ht])]
        exact ih sp hmem hndr

lemma find?_field_of_mem (t : FieldSpec → Bool) (g : FieldSpec → String × ParamVal)
    (hg : ∀ q, (g q).1 = q.field) :
    ∀ (specs : List FieldSpec) (sp : FieldSpec), sp ∈ specs →
      (specs.map (fun q => q.field)).Nodup →
      ((specs.filter t).map g).find? (fun p => p.1 == sp.field) =
        if t sp then some (g sp) else none := by
  intro specs
  induction specs with
  | nil => intro sp h; simp at h
  | cons q rest ih =>
    intro sp hsp hnd
    simp only [List.map_cons, List.nodup_cons] at hnd
    obtain ⟨hq, hndr⟩ := hnd
    have hsub : ∀ x, x ∈ rest.filter t → x.field ∈ rest.map (fun q => q.field) := by
      intro x hx
      exact List.mem_map.mpr ⟨x, List.mem_of_mem_filter hx, rfl⟩
    have hnone : ∀ k, k ∉ rest.map (fun q => q.field) →
        ((rest.filter t).map g).find? (fun p => p.1 == k) = none := by
      intro k hk
      apply List.find?_eq_none.mpr
      intro x hx
      obtain ⟨a, ha, rfl⟩ := List.mem_map.mp hx
      simp only [hg a, beq_iff_eq]
      exact fun he => hk (he ▸ hsub a ha)
    rcases List.mem_cons.mp hsp with rfl | hmem
    · cases ht : t sp with
      | true =>
        rw [List.filter_cons_of_pos ht]
        simp only [List.map_cons]
        have hpa : ((g sp).1 == sp.field) = true := by simp [hg]
        rw [@List.find?_cons_of_pos _ (fun p => p.1 == sp.field) (g sp)
          (List.map g (List.filter t rest)) hpa]
        simp [ht]
      | false =>
        rw [List.filter_cons_of_neg (by simp [ht])]
        simp only [ht, Bool.false_eq_true, if_false]
        exact hnone sp.field hq
    · have hne : q.field ≠ sp.field :=
        fun he => hq (he ▸ List.mem_map.mpr ⟨sp, hmem, rfl⟩)
      cases ht : t q with
      | true =>
        rw [List.filter_cons_of_pos ht]
        simp only [List.map_cons]
        have hpa : ¬(((g q).1 == sp.field) = true) := by
          simp only [hg, beq_iff_eq]
          exact hne
        rw [@List.find?_cons_of_neg _ (fun p => p.1 == sp.field) (g q)
          (List.map g (List.filter t rest)) hpa]
        exact ih sp hmem hndr
      | false =>
        rw [List.filter_cons_of_neg (by simp [ht])]
        exact ih sp hmem hndr

lemma noSqlQuote_append (s t : String) :
    noSqlQuote (s ++ t) = (noSqlQuote s && noSqlQuote t) := by
  simp [noSqlQuote, String.toList, List.all_append]

lemma noSqlQuote_intercalate_go (sep : String) (hsep : noSqlQuote sep = true) :
    ∀ (l : List String) (acc : String), noSqlQuote acc = true →
      (∀ x ∈ l, noSqlQuote x = true) →
      noSqlQuote (String.intercalate.go acc sep l) = true := by
  intro l
  induction l with
  | nil =>
    intro acc hacc _
    simpa [String.intercalate.go] using hacc
  | cons a as ih =>
    intro acc hacc hall
    rw [String.intercalate.go]
    exact ih _ (by simp [noSqlQuote_append, hacc, hsep, hall a (by simp)])
      (fun x hx => hall x (by simp [hx]))

lemma noSqlQuote_intercalate (sep : String) (l : List String)
    (hsep : noSqlQuote sep = true) (hall : ∀ x ∈ l, noSqlQuote x = true) :
    noSqlQuote (String.intercalate sep l) = true := by
  cases l with
  | nil => rfl
  | cons a as =>
    rw [String.intercalate]
    exact noSqlQuote_intercalate_go sep hsep as a (hall a (by simp))
      (fun x hx => hall x (by simp [hx]))

lemma sales_fragment_noquote (filters : RawDict) :
    noSqlQuote (build_sales_where_clause filters).1 = true := by
  simp only [build_sales_where_clause]
  split
  · decide
  · apply noSqlQuote_intercalate _ _ (by decide)
    intro x hx
    simp only [salesConditions, List.mem_append] at hx
    rcases hx with ((((hx | hx) | hx) | hx) | hx) <;> rw [mem_if_singleton hx] <;> decide

lemma procurement_fragment_noquote (filters : RawDict) :
    noSqlQuote (build_procurement_where_clause filters).1 = true := by
  simp only [build_procurement_where_clause]
  split
  · decide
  · apply noSqlQuote_intercalate _ _ (by decide)
    intro x hx
    simp only [procurementConditions, List.mem_append] at hx
    rcases hx with ((((hx | hx) | hx) | hx) | hx) <;> rw [mem_if_singleton hx] <;> decide

lemma finance_fragment_noquote (filters : RawDict) :
    noSqlQuote (build_finance_where_clause filters).1 = true := by
  simp only [build_finance_where_clause]
  split
  · decide
  · apply noSqlQuote_intercalate _ _ (by decide)
    intro x hx
    simp only [financeConditions, List.mem_append] at hx
    rcases hx with ((((hx | hx) | hx) | hx) | hx) <;> rw [mem_if_singleton hx] <;> decide

/-- C2: for every domain and every filter dictionary in which no
declared field is active (range bounds absent/falsy and multi-selects
empty), the WHERE-clause builder returns exactly the fragment `"1=1"`
and an empty bind-parameter map. -/
theorem empty_filters_where_clause_tautology :
    (∀ filters : RawDict,
      (dictGet filters "date_from").truthy = false →
      (dictGet filters "date_to").truthy = false →
      (dictGet filters "regions").truthy = false →
      (dictGet filters "product_categories").truthy = false →
      (dictGet filters "channels").truthy = false →
      build_sales_where_clause filters = ("1=1", [])) ∧
    (∀ filters : RawDict,
      (dictGet filters "date_from").truthy = false →
      (dictGet filters "date_to").truthy = false →
      (dictGet filters "suppliers").truthy = false →
      (dictGet filters "material_groups").truthy = false →
      (dictGet filters "plants").truthy = false →
      build_procurement_where_clause filters = ("1=1", [])) ∧
    (∀ filters : RawDict,
      (dictGet filters "period_from").truthy = false →
      (dictGet filters "period_to").truthy = false →
      (dictGet filters "company_codes").truthy = false →
      (dictGet filters "cost_centers").truthy = false →
      (dictGet filters "accounts").truthy = false →
      build_finance_where_clause filters = ("1=1", [])) := by
  refine ⟨fun filters h1 h2 h3 h4 h5 => ?_, fun filters h1 h2 h3 h4 h5 => ?_,
    fun filters h1 h2 h3 h4 h5 => ?_⟩
  · simp [build_sales_where_clause, salesConditions, h1, h2, h3, h4, h5]
  · simp [build_procurement_where_clause, procurementConditions, h1, h2, h3, h4, h5]
  · simp [build_finance_where_clause, financeConditions, h1, h2, h3, h4, h5]

/-- Witness for C2: the empty filter dictionary has no active field and
each builder yields (`"1=1"`, empty params) on it. -/
theorem empty_filters_where_clause_tautology_check :
    build_sales_where_clause [] = ("1=1", []) ∧
    build_procurement_where_clause [] = ("1=1", []) ∧
    build_finance_where_clause [] = ("1=1", []) :=
  ⟨empty_filters_where_clause_tautology.1 [] rfl rfl rfl rfl rfl,
   empty_filters_where_clause_tautology.2.1 [] rfl rfl rfl rfl rfl,
   empty_filters_where_clause_tautology.2.2 [] rfl rfl rfl rfl rfl⟩

/-- C3: every builder emits its predicates joined by `" AND "` in the
declared field order of its domain (the builders coincide with the
spec-ordered `specWhere` of their declared field lists), and on the
scenario filters {date_from, date_to, regions=[DACH]} the sales builder
yields exactly the three predicates in declaration order with bind keys
{date_from, date_to, regions} and regions bound to the
one-element tuple. -/
theorem where_clause_field_order :
    (∀ filters : RawDict, build_sales_where_clause filters = specWhere salesSpecs filters) ∧
    (∀ filters : RawDict,
      build_procurement_where_clause filters = specWhere procurementSpecs filters) ∧
    (∀ filters : RawDict, build_finance_where_clause filters = specWhere financeSpecs filters) ∧
    build_sales_where_clause
        [("date_from", RawVal.str "2025-01-01"), ("date_to", RawVal.str "2025-01-31"),
         ("regions", RawVal.list ["DACH"])] =
      ("order_date >= :date_from AND order_date <= :date_to AND region IN :regions",
       [("date_from", ParamVal.val (RawVal.str "2025-01-01")),
        ("date_to", ParamVal.val (RawVal.str "2025-01-31")),
        ("regions", ParamVal.tup ["DACH"])]) :=
  ⟨sales_where_eq_spec, procurement_where_eq_spec, finance_where_eq_spec, by decide⟩

/-- C4: for every builder and every multi-select field of its domain, an
active (non-empty) selection is bound as the tuple of the selected
strings in order and emits exactly one `column IN :name` predicate in
the conditions joined into the fragment; an inactive selection
contributes no predicate and no bind parameter; and the parameterized
fragment never contains a single-quote character, so no selected string
is inlined as a SQL literal. -/
theorem multiselect_bind_params :
    (∀ filters : RawDict, ∀ sp ∈ salesSpecs, sp.multi = true →
      ((dictGet filters sp.field).truthy = true →
        paramGet (build_sales_where_clause filters).2 sp.field =
          some (ParamVal.tup (pyTuple (dictGet filters sp.field))) ∧
        (salesConditions filters).1.count sp.pred = 1) ∧
      ((dictGet filters sp.field).truthy = false →
        paramGet (build_sales_where_clause filters).2 sp.field = none ∧
        (salesConditions filters).1.count sp.pred = 0)) ∧
    (∀ filters : RawDict, ∀ sp ∈ procurementSpecs, sp.multi = true →
      ((dictGet filters sp.field).truthy = true →
        paramGet (build_procurement_where_clause filters).2 sp.field =
          some (ParamVal.tup (pyTuple (dictGet filters sp.field))) ∧
        (procurementConditions filters).1.count sp.pred = 1) ∧
      ((dictGet filters sp.field).truthy = false →
        paramGet (build_procurement_where_clause filters).2 sp.field = none ∧
        (procurementConditions filters).1.count sp.pred = 0)) ∧
    (∀ filters : RawDict, ∀ sp ∈ financeSpecs, sp.multi = true →
      ((dictGet filters sp.field).truthy = true →
        paramGet (build_finance_where_clause filters).2 sp.field =
          some (ParamVal.tup (pyTuple (dictGet filters sp.field))) ∧
        (financeConditions filters).1.count sp.pred = 1) ∧
      ((dictGet filters sp.field).truthy = false →
        paramGet (build_finance_where_clause filters).2 sp.field = none ∧
        (financeConditions filters).1.count sp.pred = 0)) ∧
    (∀ filters : RawDict,
      noSqlQuote (build_sales_where_clause filters).1 = true ∧
      noSqlQuote (build_procurement_where_clause filters).1 = true ∧
      noSqlQuote (build_finance_where_clause filters).1 = true) := by
  refine ⟨fun filters sp hsp hm => ?_, fun filters sp hsp hm => ?_,
    fun filters sp hsp hm => ?_,
    fun filters => ⟨sales_fragment_noquote filters, procurement_fragment_noquote filters,
      finance_fragment_noquote filters⟩⟩
  · have hfind := find?_field_of_mem (fun q => (dictGet filters q.field).truthy)
      (fun q => (q.field, if q.multi then ParamVal.tup (pyTuple (dictGet filters q.field))
                 else ParamVal.val (dictGet filters q.field)))
      (fun _ => rfl) salesSpecs sp hsp (by decide)
    have hcount := count_pred_of_mem (fun q => (dictGet filters q.field).truthy)
      salesSpecs sp hsp (by decide)
    have hpm : (build_sales_where_clause filters).2 = (salesConditions filters).2 := rfl
    constructor
    · intro ht
      refine ⟨?_, ?_⟩
      · rw [hpm, sales_conditions_eq_spec, paramGet, hfind]
        simp [ht, hm]
      · rw [sales_conditions_eq_spec, hcount]
        simp [ht]
    · intro ht
      refine ⟨?_, ?_⟩
      · rw [hpm, sales_conditions_eq_spec, paramGet, hfind]
        simp [ht]
      · rw [sales_conditions_eq_spec, hcount]
        simp [ht]
  · have hfind := find?_field_of_mem (fun q => (dictGet filters q.field).truthy)
      (fun q => (q.field, if q.multi then ParamVal.tup (pyTuple (dictGet filters q.field))
                 else ParamVal.val (dictGet filters q.field)))
      (fun _ => rfl) procurementSpecs sp hsp (by decide)
    have hcount := count_pred_of_mem (fun q => (dictGet filters q.field).truthy)
      procurementSpecs sp hsp (by decide)
    have hpm : (build_procurement_where_clause filters).2 =
      (procurementConditions filters).2 := rfl
    constructor
    · intro ht
      refine ⟨?_, ?_⟩
      · rw [hpm, procurement_conditions_eq_spec, paramGet, hfind]
        simp [ht, hm]
      · rw [procurement_conditions_eq_spec, hcount]
        simp [ht]
    · intro ht
      refine ⟨?_, ?_⟩
      · rw [hpm, procurement_conditions_eq_spec, paramGet, hfind]
        simp [ht]
      · rw [procurement_conditions_eq_spec, hcount]
        simp [ht]
  · have hfind := find?_field_of_mem (fun q => (dictGet filters q.field).truthy)
      (fun q => (q.field, if q.multi then ParamVal.tup (pyTuple (dictGet filters q.field))
                 else ParamVal.val (dictGet filters q.field)))
      (fun _ => rfl) financeSpecs sp hsp (by decide)
    have hcount := count_pred_of_mem (fun q => (dictGet filters q.field).truthy)
      financeSpecs sp hsp (by decide)
    have hpm : (build_finance_where_clause filters).2 = (financeConditions filters).2 := rfl
    constructor
    · intro ht
      refine ⟨?_, ?_⟩
      · rw [hpm, finance_conditions_eq_spec, paramGet, hfind]
        simp [ht, hm]
      · rw [finance_conditions_eq_spec, hcount]
        simp [ht]
    · intro ht
      refine ⟨?_, ?_⟩
      · rw [hpm, finance_conditions_eq_spec, paramGet, hfind]
        simp [ht]
      · rw [finance_conditions_eq_spec, hcount]
        simp [ht]

/-- Witness for C4: on concrete filters with regions = (DACH, FR) the
sales builder binds the tuple in order, emits the single IN predicate,
omits the inactive channels field, and the fragment has no quote. -/
theorem multiselect_bind_params_check :
    paramGet (build_sales_where_clause [("regions", RawVal.list ["DACH", "FR"])]).2 "regions" =
      some (ParamVal.tup ["DACH", "FR"]) ∧
    (salesConditions [("regions", RawVal.list ["DACH", "FR"])]).1.count "region IN :regions" = 1 ∧
    paramGet (build_sales_where_clause [("regions", RawVal.list ["DACH", "FR"])]).2 "channels" =
      none ∧
    noSqlQuote (build_sales_where_clause [("regions", RawVal.list ["DACH", "FR"])]).1 = true :=
  ⟨((multiselect_bind_params.1 [("regions", RawVal.list ["DACH", "FR"])]
      ⟨"regions", "region IN :regions", true⟩ (by decide) rfl).1 (by decide)).1,
   ((multiselect_bind_params.1 [("regions", RawVal.list ["DACH", "FR"])]
      ⟨"regions", "region IN :regions", true⟩ (by decide) rfl).1 (by decide)).2,
   ((multiselect_bind_params.1 [("regions", RawVal.list ["DACH", "FR"])]
      ⟨"channels", "channel IN :channels", true⟩ (by decide) rfl).2 (by decide)).1,
   (multiselect_bind_params.2.2.2 [("regions", RawVal.list ["DACH", "FR"])]).1⟩

lemma filter_orderedInsert_executed (t : String) (a : Run) :
    ∀ l : List Run,
      (List.orderedInsert runsDescRel a l).filter (fun r => r.executed_at == t) =
        ((a :: l).filter (fun r => r.executed_at == t)) := by
  intro l
  induction l with
  | nil => rfl
  | cons b bs ih =>
    simp only [List.orderedInsert]
    split
    · rfl
    · rename_i hr
      by_cases hb : (b.executed_at == t) = true
      · by_cases ha : (a.executed_at == t) = true
        · exact absurd (le_of_eq (by rw [eq_of_beq hb, eq_of_beq ha])) hr
        · simp [List.filter_cons, hb, ha, ih]
      · simp [List.filter_cons, hb, ih]

lemma sortRunsDesc_filter_stable (t : String) :
    ∀ runs : List Run,
      (sortRunsDesc runs).filter (fun r => r.executed_at == t) =
        runs.filter (fun r => r.executed_at == t) := by
  intro runs
  induction runs with
  | nil => rfl
  | cons a l ih =>
    show (List.orderedInsert runsDescRel a (List.insertionSort runsDescRel l)).filter _ = _
    rw [filter_orderedInsert_executed]
    simp only [List.filter_cons]
    rw [show (List.insertionSort runsDescRel l).filter (fun r => r.executed_at == t) =
      l.filter (fun r => r.executed_at == t) from ih]

lemma sortRunsDesc_perm (runs : List Run) : (sortRunsDesc runs).Perm runs :=
  List.perm_insertionSort runsDescRel runs

lemma sortRunsDesc_sorted (runs : List Run) :
    List.Pairwise runsDescRel (sortRunsDesc runs) :=
  List.sorted_insertionSort runsDescRel runs

/-- C1 (code bug): on any non-empty store, `get_runs` with a domain
argument raises `AttributeError` because the filter reads
`r.business_case` while the `Run` dataclass declares `domain`;
`get_completed_runs` propagates the same failure. Shown at the concrete
failing input: a store holding one completed sales run, listed with
domain "sales". -/
theorem get_runs_domain_filter_attribute_failure :
    get_runs [archiveRun] (some "sales") =
      Except.error "AttributeError: Run object has no attribute business_case" ∧
    get_completed_runs [archiveRun] (some "sales") =
      Except.error "AttributeError: Run object has no attribute business_case" ∧
    archiveRun.domain = "sales" ∧ archiveRun.status = RunStatus.completed :=
  ⟨rfl, rfl, rfl, rfl⟩

/-- C7: `list()` with no domain argument never raises and returns all
stored runs sorted by execution timestamp descending; runs with equal
timestamps keep their insertion order; in particular a store holding
three runs with strictly increasing timestamps t1 < t2 < t3, inserted in
any order, lists as [t3, t2, t1]. -/
theorem run_store_list_sorted_desc :
    (∀ runs : List Run, get_runs runs none = Except.ok (sortRunsDesc runs)) ∧
    (∀ runs : List Run, (sortRunsDesc runs).Perm runs) ∧
    (∀ runs : List Run, List.Pairwise runsDescRel (sortRunsDesc runs)) ∧
    (∀ (runs : List Run) (t : String),
      (sortRunsDesc runs).filter (fun r => r.executed_at == t) =
        runs.filter (fun r => r.executed_at == t)) ∧
    (∀ (r1 r2 r3 : Run) (l : List Run), l.Perm [r1, r2, r3] →
      r1.executed_at < r2.executed_at → r2.executed_at < r3.executed_at →
      get_runs l none = Except.ok [r3, r2, r1]) := by
  refine ⟨fun runs => rfl, sortRunsDesc_perm, sortRunsDesc_sorted,
    fun runs t => sortRunsDesc_filter_stable t runs, ?_⟩
  intro r1 r2 r3 l hperm h12 h23
  have hrev : [r1, r2, r3].Perm [r3, r2, r1] := (List.reverse_perm [r1, r2, r3]).symm
  have hperm2 : (sortRunsDesc l).Perm [r3, r2, r1] :=
    (sortRunsDesc_perm l).trans (hperm.trans hrev)
  have hsorted : List.Pairwise runsDescRel (sortRunsDesc l) := sortRunsDesc_sorted l
  have hbase : List.Pairwise (fun a b : Run => a.executed_at ≠ b.executed_at) [r3, r2, r1] := by
    refine List.Pairwise.cons ?_ (List.Pairwise.cons ?_ (List.pairwise_singleton _ _))
    · intro b hb
      rcases List.mem_cons.mp hb with rfl | hb
      · exact h23.ne'
      · rcases List.mem_cons.mp hb with rfl | hb
        · exact (lt_trans h12 h23).ne'
        · simp at hb
    · intro b hb
      rcases List.mem_cons.mp hb with rfl | hb
      · exact h12.ne'
      · simp at hb
  have hne : List.Pairwise (fun a b : Run => a.executed_at ≠ b.executed_at) (sortRunsDesc l) :=
    (hperm2.pairwise_iff (fun h => h.symm)).mpr hbase
  have hstrict : List.Pairwise runsDescStrict (sortRunsDesc l) := by
    refine (hsorted.and hne).imp ?_
    rintro a b ⟨hle, hneq⟩
    exact lt_of_le_of_ne hle (fun he => hneq he.symm)
  have htarget : List.Pairwise runsDescStrict [r3, r2, r1] := by
    refine List.Pairwise.cons ?_ (List.Pairwise.cons ?_ (List.pairwise_singleton _ _))
    · intro b hb
      rcases List.mem_cons.mp hb with rfl | hb
      · exact h23
      · rcases List.mem_cons.mp hb with rfl | hb
        · exact lt_trans h12 h23
        · simp at hb
    · intro b hb
      rcases List.mem_cons.mp hb with rfl | hb
      · exact h12
      · simp at hb
  have heq : sortRunsDesc l = [r3, r2, r1] :=
    List.eq_of_perm_of_sorted hperm2 hstrict htarget
  show Except.ok (sortRunsDesc l) = Except.ok [r3, r2, r1]
  rw [heq]

/-- Witness for C7: three concrete runs with increasing timestamps,
inserted middle-first, list newest-first. -/
theorem run_store_list_sorted_desc_check :
    get_runs [witnessRunB, witnessRunA, witnessRunC] none =
      Except.ok [witnessRunC, witnessRunB, witnessRunA] :=
  run_store_list_sorted_desc.2.2.2.2 witnessRunA witnessRunB witnessRunC
    [witnessRunB, witnessRunA, witnessRunC]
    (by decide)
    (by rw [String.lt_iff_toList_lt]; decide)
    (by rw [String.lt_iff_toList_lt]; decide)

/-- C10: serializing a run with `Run.to_dict` and deserializing with
`Run.from_dict` reconstructs the run in every field, for any status.
The hypothesis `executed_at ≠ ""` is the invariant `__post_init__`
establishes on every constructed run (an empty timestamp is replaced by
the current time at construction). -/
theorem run_serialization_roundtrip (freshId now : String) (r : Run)
    (h : r.executed_at ≠ "") :
    Run.from_dict freshId now (Run.to_dict r) = Except.ok r := by
  cases r with
  | mk id domain filters executed_at status results sql_preview =>
    have he : (executed_at == "") = false := beq_eq_false_iff_ne.mpr h
    cases status <;>
      simp [Run.from_dict, Run.to_dict, runStatusOfValue, RunStatus.value, he, Except.bind]

/-- Witness for C10: the round trip at a concrete completed run. -/
theorem run_serialization_roundtrip_check :
    Run.from_dict "fresh" "2025-06-02T00:00:00" (Run.to_dict archiveRun) =
      Except.ok archiveRun :=
  run_serialization_roundtrip "fresh" "2025-06-02T00:00:00" archiveRun (by decide)

lemma find?_key_filter (ks : List String) (k : String) (hk : k ∈ ks) :
    ∀ d : RawDict,
      (d.filter (fun p => decide (p.1 ∈ ks))).find? (fun p => p.1 == k) =
        d.find? (fun p => p.1 == k) := by
  intro d
  induction d with
  | nil => rfl
  | cons a d ih =>
    by_cases ha : (a.1 == k) = true
    · have hmem : a.1 ∈ ks := (eq_of_beq ha) ▸ hk
      rw [List.filter_cons_of_pos (by simpa using hmem)]
      rw [@List.find?_cons_of_pos _ (fun p => p.1 == k) a d ha,
        @List.find?_cons_of_pos _ (fun p => p.1 == k) a
          (d.filter (fun p => decide (p.1 ∈ ks))) ha]
    · have ha' : ¬((fun p : String × RawVal => p.1 == k) a = true) := by simpa using ha
      by_cases hm : a.1 ∈ ks
      · rw [List.filter_cons_of_pos (by simpa using hm)]
        rw [@List.find?_cons_of_neg _ (fun p => p.1 == k) a
          (d.filter (fun p => decide (p.1 ∈ ks))) ha',
          @List.find?_cons_of_neg _ (fun p => p.1 == k) a d ha']
        exact ih
      · rw [List.filter_cons_of_neg (by simpa using hm)]
        rw [@List.find?_cons_of_neg _ (fun p => p.1 == k) a d ha']
        exact ih

lemma dictGet_filter (ks : List String) (k : String) (hk : k ∈ ks) (d : RawDict) :
    dictGet (d.filter (fun p => decide (p.1 ∈ ks))) k = dictGet d k := by
  unfold dictGet
  rw [find?_key_filter ks k hk d]

lemma dictGetD_filter (ks : List String) (k : String) (hk : k ∈ ks) (d : RawDict)
    (v : RawVal) :
    dictGetD (d.filter (fun p => decide (p.1 ∈ ks))) k v = dictGetD d k v := by
  unfold dictGetD
  rw [find?_key_filter ks k hk d]

lemma sales_from_dict_filter (data : RawDict) :
    SalesFilters.from_dict (data.filter (fun p => decide (p.1 ∈ declaredFields "sales"))) =
      SalesFilters.from_dict data := by
  unfold SalesFilters.from_dict
  rw [dictGet_filter _ "date_from" (by decide), dictGet_filter _ "date_to" (by decide),
    dictGetD_filter _ "regions" (by decide), dictGetD_filter _ "product_categories" (by decide),
    dictGetD_filter _ "channels" (by decide)]

lemma procurement_from_dict_filter (data : RawDict) :
    ProcurementFilters.from_dict
        (data.filter (fun p => decide (p.1 ∈ declaredFields "procurement"))) =
      ProcurementFilters.from_dict data := by
  unfold ProcurementFilters.from_dict
  rw [dictGet_filter _ "date_from" (by decide), dictGet_filter _ "date_to" (by decide),
    dictGetD_filter _ "suppliers" (by decide), dictGetD_filter _ "material_groups" (by decide),
    dictGetD_filter _ "plants" (by decide)]

lemma finance_from_dict_filter (data : RawDict) :
    FinanceFilters.from_dict
        (data.filter (fun p => decide (p.1 ∈ declaredFields "finance"))) =
      FinanceFilters.from_dict data := by
  unfold FinanceFilters.from_dict
  rw [dictGet_filter _ "period_from" (by decide), dictGet_filter _ "period_to" (by decide),
    dictGetD_filter _ "company_codes" (by decide),
    dictGetD_filter _ "cost_centers" (by decide), dictGetD_filter _ "accounts" (by decide)]

/-- Counterexample for C6: the factory does NOT reject an input that
contains an undeclared field name; on the raw input {"bogus": "x"} for
domain sales it succeeds and returns the default FilterSet. -/
theorem unknown_field_accepted :
    create_filters_from_dict "sales" [("bogus", RawVal.str "x")] =
      Except.ok (DomainFilters.sales
        { date_from := none, date_to := none, regions := RawVal.list [],
          product_categories := RawVal.list [], channels := RawVal.list [] }) ∧
    "bogus" ∉ declaredFields "sales" :=
  ⟨rfl, by decide⟩

/-- C6 (amended): the factory rejects unknown domain tags with a
ValueError; unknown field names in the raw input are silently ignored,
never rejected: the construction depends only on the entries whose key
is a domain-declared field name. -/
theorem filters_factory_ignores_unknown_fields :
    (∀ (domain : String) (data : RawDict),
      domain ≠ "sales" → domain ≠ "procurement" → domain ≠ "finance" →
      create_filters_from_dict domain data =
        Except.error ("ValueError: Unknown domain: " ++ domain)) ∧
    (∀ (domain : String) (data : RawDict),
      create_filters_from_dict domain
          (data.filter (fun p => decide (p.1 ∈ declaredFields domain))) =
        create_filters_from_dict domain data) := by
  constructor
  · intro domain data h1 h2 h3
    simp [create_filters_from_dict, beq_eq_false_iff_ne.mpr h1,
      beq_eq_false_iff_ne.mpr h2, beq_eq_false_iff_ne.mpr h3]
  · intro domain data
    by_cases h1 : domain = "sales"
    · subst h1
      simp [create_filters_from_dict, sales_from_dict_filter data]
    · by_cases h2 : domain = "procurement"
      · subst h2
        simp [create_filters_from_dict, procurement_from_dict_filter data]
      · by_cases h3 : domain = "finance"
        · subst h3
          simp [create_filters_from_dict, finance_from_dict_filter data]
        · simp [create_filters_from_dict, beq_eq_false_iff_ne.mpr h1,
            beq_eq_false_iff_ne.mpr h2, beq_eq_false_iff_ne.mpr h3]

/-- Witness for C6 (amended): an unknown domain errors; on domain sales
an input with an extra unknown key builds the same FilterSet as the
input restricted to declared keys. -/
theorem filters_factory_ignores_unknown_fields_check :
    create_filters_from_dict "marketing" [] =
      Except.error "ValueError: Unknown domain: marketing" ∧
    create_filters_from_dict "sales"
        ([("bogus", RawVal.str "x"), ("regions", RawVal.list ["DACH"])].filter
          (fun p => decide (p.1 ∈ declaredFields "sales"))) =
      create_filters_from_dict "sales"
        [("bogus", RawVal.str "x"), ("regions", RawVal.list ["DACH"])] :=
  ⟨filters_factory_ignores_unknown_fields.1 "marketing" [] (by decide) (by decide) (by decide),
   filters_factory_ignores_unknown_fields.2 "sales"
     [("bogus", RawVal.str "x"), ("regions", RawVal.list ["DACH"])]⟩

/-- Counterexample for C5: a derived ratio can be 0.0 while its
denominator aggregate is non-zero ("equals 0.0 exactly when the
denominator is 0" fails): four deliveries, none on time, give an
on-time-delivery rate of 0.0 with delivery_count = 4. -/
theorem ratio_zero_with_nonzero_denominator :
    procurement_on_time_rate 0 4 = Except.ok 0 ∧ (4 : ℤ) ≠ 0 := by
  constructor
  · norm_num [procurement_on_time_rate, pyDivQ, Except.map]
  · decide

/-- C5 (amended): each derived ratio — sales conversion rate,
procurement on-time-delivery rate, finance operating margin — is always
computed without a division error (the zero-denominator guard makes the
computation total), yielding a well-defined number that equals 0.0
whenever the denominator aggregate is 0 (the converse does not hold). -/
theorem derived_ratios_defined_and_zero_guard :
    (∀ o v : ℤ, ∃ q : ℚ, sales_conversion_rate o v = Except.ok q ∧ (v = 0 → q = 0)) ∧
    (∀ o d : ℤ, ∃ q : ℚ, procurement_on_time_rate o d = Except.ok q ∧ (d = 0 → q = 0)) ∧
    (∀ i e : ℚ, ∃ q : ℚ, finance_operating_margin i e = Except.ok q ∧ (i = 0 → q = 0)) := by
  refine ⟨fun o v => ?_, fun o d => ?_, fun i e => ?_⟩
  · by_cases hv : v > 0
    · refine ⟨(o : ℚ) / (v : ℚ) * 100, ?_, fun h0 => absurd h0 (by omega)⟩
      have : ((v : ℚ)) ≠ 0 := by exact_mod_cast (by omega : v ≠ 0)
      simp [sales_conversion_rate, pyDivQ, Except.map, hv, this]
    · exact ⟨0, by simp [sales_conversion_rate, hv], fun _ => rfl⟩
  · by_cases hd : d > 0
    · refine ⟨(o : ℚ) / (d : ℚ) * 100, ?_, fun h0 => absurd h0 (by omega)⟩
      have : ((d : ℚ)) ≠ 0 := by exact_mod_cast (by omega : d ≠ 0)
      simp [procurement_on_time_rate, pyDivQ, Except.map, hd, this]
    · exact ⟨0, by simp [procurement_on_time_rate, hd], fun _ => rfl⟩
  · by_cases hi : i > 0
    · refine ⟨(i - e) / i * 100, ?_, fun h0 => absurd h0 (ne_of_gt hi)⟩
      simp [finance_operating_margin, pyDivQ, Except.map, hi, ne_of_gt hi]
    · exact ⟨0, by simp [finance_operating_margin, hi], fun _ => rfl⟩

/-- Witness for C5 (amended): the three ratio computations applied at
concrete inputs with zero denominators. -/
theorem derived_ratios_defined_and_zero_guard_check :
    (∃ q : ℚ, sales_conversion_rate 3 0 = Except.ok q ∧ ((0 : ℤ) = 0 → q = 0)) ∧
    (∃ q : ℚ, procurement_on_time_rate 2 0 = Except.ok q ∧ ((0 : ℤ) = 0 → q = 0)) ∧
    (∃ q : ℚ, finance_operating_margin 0 5 = Except.ok q ∧ ((0 : ℚ) = 0 → q = 0)) :=
  ⟨derived_ratios_defined_and_zero_guard.1 3 0,
   derived_ratios_defined_and_zero_guard.2.1 2 0,
   derived_ratios_defined_and_zero_guard.2.2 0 5⟩

lemma pyInt_mono {a b : ℚ} (h : a ≤ b) : pyInt a ≤ pyInt b := by
  unfold pyInt
  by_cases ha : (0 : ℚ) ≤ a
  · rw [if_pos ha, if_pos (le_trans ha h)]
    exact Int.floor_le_floor h
  · rw [if_neg ha]
    by_cases hb : (0 : ℚ) ≤ b
    · rw [if_pos hb]
      have h1 : ⌈a⌉ ≤ 0 := Int.ceil_le.mpr (by exact_mod_cast le_of_lt (lt_of_not_le ha))
      have h2 : (0 : ℤ) ≤ ⌊b⌋ := Int.le_floor.mpr (by exact_mod_cast hb)
      omega
    · rw [if_neg hb]
      exact Int.ceil_le_ceil h

lemma topNDesc_sorted (n : ℕ) (l : List (String × ℚ)) :
    List.Pairwise pairDescRel (topNDesc n l) :=
  List.Pairwise.sublist (List.take_sublist n _) (List.sorted_insertionSort pairDescRel l)

lemma topNDesc_values_sorted (n : ℕ) (l : List (String × ℚ)) :
    List.Pairwise (fun a b : ℤ => b ≤ a) ((topNDesc n l).map (fun p => pyInt p.2)) :=
  List.Pairwise.map _ (fun _ _ hab => pyInt_mono hab) (topNDesc_sorted n l)

lemma topNDesc_length_le (n : ℕ) (l : List (String × ℚ)) : (topNDesc n l).length ≤ n := by
  simp [topNDesc, List.length_take]

/-- C8: for every domain tag outside {sales, procurement, finance} and
every FilterSet, `generate_sql_preview` returns exactly the comment-only
placeholder "-- Unknown domain" without raising, and `execute_run`
returns the empty results dict paired with that placeholder, for any
database contents. -/
theorem unknown_domain_placeholder (domain : String) (filters : RawDict) (db : FactDb)
    (h1 : domain ≠ "sales") (h2 : domain ≠ "procurement") (h3 : domain ≠ "finance") :
    generate_sql_preview domain filters = "-- Unknown domain" ∧
    execute_run db domain filters = (RunResults.empty, "-- Unknown domain") := by
  have b1 := beq_eq_false_iff_ne.mpr h1
  have b2 := beq_eq_false_iff_ne.mpr h2
  have b3 := beq_eq_false_iff_ne.mpr h3
  constructor
  · simp [generate_sql_preview, b1, b2, b3]
  · simp [execute_run, generate_sql_preview, b1, b2, b3]

/-- Witness for C8: the unknown domain "marketing" on the empty
database and empty filters. -/
theorem unknown_domain_placeholder_check :
    generate_sql_preview "marketing" [] = "-- Unknown domain" ∧
    execute_run ⟨[], [], []⟩ "marketing" [] = (RunResults.empty, "-- Unknown domain") :=
  unknown_domain_placeholder "marketing" [] ⟨[], [], []⟩ (by decide) (by decide) (by decide)

/-- C9: for every fact table contents and every FilterSet, the
RunResult assembled by each domain's run executor has every trend series
of the same length as the months array, breakdown labels and values of
equal length with at most 10 entries, and breakdown values sorted
descending. -/
theorem run_result_array_invariants :
    (∀ (facts : List SalesRow) (filters : RawDict),
      ((execute_sales_run facts filters).trends.series.all
        (fun s => s.2.length == (execute_sales_run facts filters).trends.months.length)) = true ∧
      (execute_sales_run facts filters).breakdown.labels.length =
        (execute_sales_run facts filters).breakdown.values.length ∧
      (execute_sales_run facts filters).breakdown.labels.length ≤ 10 ∧
      List.Pairwise (fun a b : ℤ => b ≤ a) (execute_sales_run facts filters).breakdown.values) ∧
    (∀ (facts : List ProcurementRow) (filters : RawDict),
      ((execute_procurement_run facts filters).trends.series.all
        (fun s => s.2.length ==
          (execute_procurement_run facts filters).trends.months.length)) = true ∧
      (execute_procurement_run facts filters).breakdown.labels.length =
        (execute_procurement_run facts filters).breakdown.values.length ∧
      (execute_procurement_run facts filters).breakdown.labels.length ≤ 10 ∧
      List.Pairwise (fun a b : ℤ => b ≤ a)
        (execute_procurement_run facts filters).breakdown.values) ∧
    (∀ (facts : List FinanceRow) (filters : RawDict),
      ((execute_finance_run facts filters).trends.series.all
        (fun s => s.2.length == (execute_finance_run facts filters).trends.months.length)) = true ∧
      (execute_finance_run facts filters).breakdown.labels.length =
        (execute_finance_run facts filters).breakdown.values.length ∧
      (execute_finance_run facts filters).breakdown.labels.length ≤ 10 ∧
      List.Pairwise (fun a b : ℤ => b ≤ a)
        (execute_finance_run facts filters).breakdown.values) := by
  refine ⟨fun facts filters => ?_, fun facts filters => ?_, fun facts filters => ?_⟩ <;>
    refine ⟨?_, ?_, ?_, ?_⟩
  · simp [execute_sales_run]
  · simp [execute_sales_run]
  · simp only [execute_sales_run, List.length_map]
    exact topNDesc_length_le 10 _
  · simp only [execute_sales_run]
    exact topNDesc_values_sorted 10 _
  · simp [execute_procurement_run]
  · simp [execute_procurement_run]
  · simp only [execute_procurement_run, List.length_map]
    exact topNDesc_length_le 10 _
  · simp only [execute_procurement_run]
    exact topNDesc_values_sorted 10 _
  · simp [execute_finance_run]
  · simp [execute_finance_run]
  · simp only [execute_finance_run, List.length_map]
    exact topNDesc_length_le 10 _
  · simp only [execute_finance_run]
    exact topNDesc_values_sorted 10 _
